import Mathlib

/-!
# Authentication client of go-googleplay (`pkg/auth/client.go`)

A shallow embedding of the authentication client: the `Config` record, mode
selection (`getAuthType`), device registration (`getGsfId`) and the
orchestration (`Authenticate`), followed by the properties proved about them.

Conventions of the embedding.

* A Go `(value, error)` result whose value is dropped on error is an
  `Except Error α`; one whose value is stored before the error is inspected is
  a pair `α × Option Error`; a lone `error` is an `Option Error`.
* Collaborators that live outside `client.go` (the protobuf codec, the HTTP
  transport, the clock, `encryptCredentials`, `getPlayStoreAuthSubToken`, the
  keyring) are fields of `Env`.  Every call that leaves the client is logged in
  a trace of `Call`s, in program order.
* A run-time panic of the Go program is the outcome `Outcome.panicked`.
* Logging statements (`log.Debugf`, `log.Infof`) have no effect on the state
  and are left out.
-/

namespace auth

/-! ## Basic types -/

/-- Go `error` values, identified by their message. -/
abbrev Error := String

/-- Go `[]byte`. -/
abbrev Bytes := List UInt8

/-- How a Go function call ends: it returns a value, or the goroutine panics. -/
inductive Outcome (α : Type) where
  | returned (value : α)
  | panicked (reason : String)
deriving DecidableEq, Repr

/-- The `Config` struct of `client.go`. -/
structure Config where
  Email : String
  Password : String
  GsfId : String
  AuthSubToken : String
deriving DecidableEq, Repr

/-- The `Client` struct of `client.go`; `config` is a pointer in Go, so writes
through it are visible to the caller: the embedding returns the updated client. -/
structure Client where
  config : Config
  deviceConsistencyToken : String
deriving DecidableEq, Repr

/-- The Go type `Type` (a string type) of authentication modes. -/
abbrev AuthType := String

def EmailPassword : AuthType := "email-pass"
def Token : AuthType := "token"
def Unknown : AuthType := ""

/-! ## Mode selection -/

/-- Method `getAuthType`: use email and password if set, otherwise use tokens. -/
def getAuthType (client : Client) : AuthType :=
  if client.config.Email ≠ "" ∧ client.config.Password ≠ "" then
    EmailPassword
  else if client.config.GsfId ≠ "" ∧ client.config.AuthSubToken ≠ "" then
    Token
  else
    Unknown

/-- Method `HasAuthToken`. -/
def HasAuthToken (client : Client) : Bool :=
  client.config.GsfId ≠ "" ∧ client.config.AuthSubToken ≠ ""

/-- Method `GetGsfId`. -/
def GetGsfId (client : Client) : String := client.config.GsfId

/-- Method `GetAuthSubToken`. -/
def GetAuthSubToken (client : Client) : String := client.config.AuthSubToken

/-! ## The clock -/

/-- A reading of the wall clock (Go `time.Time`): `abs` is the number of
seconds since the absolute epoch of package `time`, zone offset applied. -/
structure Time where
  abs : Nat
deriving DecidableEq, Repr

def secondsPerMinute : Nat := 60

/-- Go `Time.Second`: the second offset within the minute, in the range 0..59
(`int(t.abs() % secondsPerMinute)`). -/
def Time.Second (t : Time) : Int := ((t.abs % secondsPerMinute : Nat) : Int)

/-! ## Protobuf messages

The generated package `pb` is not among the sources; the messages carry the
fields that `getGsfId` reads or sets to a non-nil value. -/

/-- Modelled from the spec: `pb.AndroidBuildProto` is not in the sources; these
are the fields the checkin literal of `getGsfId` fills in. -/
structure AndroidBuildProto where
  Id : Option String
  Product : Option String
  Carrier : Option String
  Radio : Option String
  Bootloader : Option String
  Client : Option String
  Timestamp : Option Int
  GoogleServices : Option Int
  Device : Option String
  SdkVersion : Option Int
  Model : Option String
  Manufacturer : Option String
  BuildProduct : Option String
  OtaInstalled : Option Bool
deriving DecidableEq, Repr

/-- Modelled from the spec: `pb.AndroidCheckinProto` is not in the sources;
`Event`, `Stat` and `RequestedGroup` are nil in the literal and left out. -/
structure AndroidCheckinProto where
  Build : Option AndroidBuildProto
  LastCheckinMsec : Option Int
  CellOperator : Option String
  SimOperator : Option String
  Roaming : Option String
  UserNumber : Option Int
deriving DecidableEq, Repr

/-- Modelled from the spec: `pb.DeviceConfigurationProto` is not in the sources;
`DeviceClass` is nil in the literal and left out. -/
structure DeviceConfigurationProto where
  TouchScreen : Option Int
  Keyboard : Option Int
  Navigation : Option Int
  ScreenLayout : Option Int
  HasHardKeyboard : Option Bool
  HasFiveWayNavigation : Option Bool
  ScreenDensity : Option Int
  GlEsVersion : Option Int
  SystemSharedLibrary : List String
  SystemAvailableFeature : List String
  NativePlatform : List String
  ScreenWidth : Option Int
  ScreenHeight : Option Int
  SystemSupportedLocale : List String
  GlExtension : List String
  MaxApkDownloadSizeMb : Option Int
deriving DecidableEq, Repr

/-- Modelled from the spec: `pb.AndroidCheckinRequest` is not in the sources;
the fields that are nil in the literal of `getGsfId` are left out. -/
structure AndroidCheckinRequest where
  Checkin : Option AndroidCheckinProto
  Locale : Option String
  TimeZone : Option String
  Version : Option Int
  DeviceConfiguration : Option DeviceConfigurationProto
  Fragment : Option Int
deriving DecidableEq, Repr

/-- Modelled from the spec: `pb.AndroidCheckinResponse` is not in the sources;
`AndroidId` is its optional 64-bit unsigned device identifier (a `*uint64`),
the only field `getGsfId` reads. -/
structure AndroidCheckinResponse where
  AndroidId : Option Nat
deriving DecidableEq, Repr

/-- Go `http.Response` as far as `getGsfId` looks at it; `Body` is what
`ioutil.ReadAll(resp.Body)` yields. -/
structure Response where
  Status : String
  StatusCode : Int
  Body : Except Error Bytes

/-- Modelled from the spec: the token kinds `keyring.GSFID` and
`keyring.AuthSubToken` of the keyring package, which is not in the sources. -/
inductive keyring.TokenKind where
  | GSFID
  | AuthSubToken
deriving DecidableEq, Repr

/-! ## Collaborators and the trace of calls -/

/-- A call that leaves the client. -/
inductive Call where
  | encryptCredentials (email password : String)
  | Post (url contentType : String) (body : Bytes)
  | getPlayStoreAuthSubToken (email encryptedPasswd : String)
  | SaveToken (kind : keyring.TokenKind) (value : String)
deriving DecidableEq, Repr

/-- The collaborators of the client.  `Post n` answers the `n`-th `http.Post`
of a run (two posts of the same bytes may be answered differently). -/
structure Env where
  -- The constant `common.APIBaseURL`.
  APIBaseURL : String
  -- The reading of `time.Now()`.
  Now : Time
  -- Function `proto.Marshal` on the checkin request.
  Marshal : AndroidCheckinRequest → Except Error Bytes
  -- Function `http.Post(url, contentType, body)`.
  Post : Nat → String → String → Bytes → Except Error Response
  -- Function `proto.Unmarshal` into an `AndroidCheckinResponse`.
  Unmarshal : Bytes → Except Error AndroidCheckinResponse
  -- Function `encryptCredentials(email, password, nil)` of package `auth`.
  encryptCredentials : String → String → Option Bytes → Except Error String
  -- Function `getPlayStoreAuthSubToken(email, encryptedPasswd)` of package
  -- `auth`; its string result is stored before the error is looked at.
  getPlayStoreAuthSubToken : String → String → String × Option Error
  -- Function `keyring.SaveToken(kind, value)`.
  SaveToken : keyring.TokenKind → String → Option Error

def AuthURL (env : Env) : String := env.APIBaseURL ++ "/auth"
def CheckinURL (env : Env) : String := env.APIBaseURL ++ "/checkin"

/-! ## `strconv.FormatUint` -/

/-- The digit table of package `strconv`. -/
def digits : List Char := "0123456789abcdefghijklmnopqrstuvwxyz".toList

/-- The digit loop of `strconv.formatBits`: while `u ≥ b` emit the digit
`u % b` in front of the buffer and divide `u` by `b`; then emit `u`.  The
first argument bounds the number of iterations (a `uint64` has 64 bits). -/
def formatBits : Nat → Nat → Nat → List Char → List Char
  | 0, _, _, a => a
  | fuel + 1, u, b, a =>
    if u ≥ b then
      formatBits fuel (u / b) b (digits.getD (u % b) '0' :: a)
    else
      digits.getD u '0' :: a

/-- Go `strconv.FormatUint(i, base)` for a `uint64` value `i` and a base in
2..36 other than the decimal fast path. -/
def FormatUint (i : Nat) (base : Nat) : String :=
  String.mk (formatBits 64 i base [])

/-! ## The checkin request -/

/-- The comma-separated list behind `SystemSharedLibrary` in the checkin literal. -/
def systemSharedLibraryCsv : String :=
  "ConnectivityExt,android.ext.services,android.ext.shared,android.hidl.manager@V1.0-java," ++
  "android.test.mock,android.test.runner,com.android.future.usb.accessory," ++
  "com.android.location.provider,com.android.media.remotedisplay," ++
  "com.android.mediadrm.signer,com.dsi.ant.antradio_library," ++
  "com.google.android.dialer.support,com.google.android.gms,com.google.android.maps," ++
  "com.google.android.media.effects,com.google.widevine.software.drm,com.qti.dpmapi," ++
  "com.qti.dpmframework,com.qti.ims.connectionmanager.imscmlibrary,com.qti.location.sdk," ++
  "com.qti.snapdragon.sdk.display,com.qualcomm.qcnvitems,com.qualcomm.qcrilhook," ++
  "com.qualcomm.qti.Performance,com.quicinc.cne,com.quicinc.cneapiclient,izat.xt.srv," ++
  "javax.obex,org.apache.http.legacy,org.lineageos.hardware,org.lineageos.platform," ++
  "qcom.fmradio"

/-- The comma-separated list behind `SystemAvailableFeature` in the checkin literal. -/
def systemAvailableFeatureCsv : String :=
  "android.hardware.audio.low_latency,android.hardware.audio.output," ++
  "android.hardware.bluetooth,android.hardware.bluetooth_le,android.hardware.camera," ++
  "android.hardware.camera.any,android.hardware.camera.autofocus," ++
  "android.hardware.camera.capability.manual_post_processing," ++
  "android.hardware.camera.capability.manual_sensor,android.hardware.camera.capability.raw," ++
  "android.hardware.camera.flash,android.hardware.camera.front," ++
  "android.hardware.camera.level.full,android.hardware.consumerir," ++
  "android.hardware.faketouch,android.hardware.fingerprint,android.hardware.location," ++
  "android.hardware.location.gps,android.hardware.location.network," ++
  "android.hardware.microphone,android.hardware.opengles.aep,android.hardware.ram.normal," ++
  "android.hardware.screen.landscape,android.hardware.screen.portrait," ++
  "android.hardware.sensor.accelerometer,android.hardware.sensor.compass," ++
  "android.hardware.sensor.gyroscope,android.hardware.sensor.light," ++
  "android.hardware.sensor.proximity,android.hardware.sensor.stepcounter," ++
  "android.hardware.sensor.stepdetector,android.hardware.telephony," ++
  "android.hardware.telephony.cdma,android.hardware.telephony.gsm," ++
  "android.hardware.touchscreen,android.hardware.touchscreen.multitouch," ++
  "android.hardware.touchscreen.multitouch.distinct," ++
  "android.hardware.touchscreen.multitouch.jazzhand,android.hardware.usb.accessory," ++
  "android.hardware.usb.host,android.hardware.vulkan.level,android.hardware.vulkan.version," ++
  "android.hardware.wifi,android.hardware.wifi.direct," ++
  "android.software.activities_on_secondary_displays,android.software.app_widgets," ++
  "android.software.autofill,android.software.backup," ++
  "android.software.companion_device_setup,android.software.connectionservice," ++
  "android.software.cts,android.software.device_admin,android.software.home_screen," ++
  "android.software.input_methods,android.software.live_wallpaper," ++
  "android.software.managed_users,android.software.midi," ++
  "android.software.picture_in_picture,android.software.print,android.software.sip," ++
  "android.software.sip.voip,android.software.voice_recognizers,android.software.webview," ++
  "com.google.android.apps.dialer.SUPPORTED,com.google.android.feature.EXCHANGE_6_2," ++
  "com.google.android.feature.GOOGLE_BUILD,com.google.android.feature.GOOGLE_EXPERIENCE," ++
  "org.lineageos.android,org.lineageos.audio,org.lineageos.hardware," ++
  "org.lineageos.livedisplay,org.lineageos.performance,org.lineageos.profiles," ++
  "org.lineageos.style,org.lineageos.weather,projekt.substratum.theme"

/-- The comma-separated list behind `SystemSupportedLocale` in the checkin literal. -/
def systemSupportedLocaleCsv : String :=
  "af,af_ZA,am,am_ET,ar,ar_EG,ar_XB,ast,az,be,bg,bg_BG,bn,bs,ca,ca_ES,cs,cs_CZ,da,da_DK,de," ++
  "de_AT,de_CH,de_DE,de_LI,el,el_GR,en,en_AU,en_CA,en_GB,en_IN,en_NZ,en_SG,en_US,en_XA," ++
  "en_XC,eo,es,es_ES,es_US,et,eu,fa,fa_IR,fi,fi_FI,fil,fil_PH,fr,fr_BE,fr_CA,fr_CH,fr_FR," ++
  "gl,gu,hi,hi_IN,hr,hr_HR,hu,hu_HU,hy,in,in_ID,is,it,it_CH,it_IT,iw,iw_IL,ja,ja_JP,ka,kk," ++
  "km,kn,ko,ko_KR,ky,lo,lt,lt_LT,lv,lv_LV,mk,ml,mn,mr,ms,ms_MY,my,nb,nb_NO,ne,nl,nl_BE," ++
  "nl_NL,pa,pl,pl_PL,pt,pt_BR,pt_PT,ro,ro_RO,ru,ru_RU,si,sk,sk_SK,sl,sl_SI,sq,sr,sr_Latn," ++
  "sr_RS,sv,sv_SE,sw,sw_TZ,ta,te,th,th_TH,tr,tr_TR,uk,uk_UA,ur,uz,vi,vi_VN,zh,zh_CN,zh_HK," ++
  "zh_TW,zu,zu_ZA"

/-- The comma-separated list behind `GlExtension` in the checkin literal. -/
def glExtensionCsv : String :=
  "GL_AMD_compressed_ATC_texture,GL_AMD_performance_monitor," ++
  "GL_ANDROID_extension_pack_es31a,GL_APPLE_texture_2D_limited_npot," ++
  "GL_ARB_vertex_buffer_object,GL_ARM_shader_framebuffer_fetch_depth_stencil," ++
  "GL_EXT_EGL_image_array,GL_EXT_YUV_target,GL_EXT_blit_framebuffer_params," ++
  "GL_EXT_buffer_storage,GL_EXT_clip_cull_distance,GL_EXT_color_buffer_float," ++
  "GL_EXT_color_buffer_half_float,GL_EXT_copy_image,GL_EXT_debug_label,GL_EXT_debug_marker," ++
  "GL_EXT_discard_framebuffer,GL_EXT_disjoint_timer_query,GL_EXT_draw_buffers_indexed," ++
  "GL_EXT_external_buffer,GL_EXT_geometry_shader,GL_EXT_gpu_shader5," ++
  "GL_EXT_multisampled_render_to_texture,GL_EXT_multisampled_render_to_texture2," ++
  "GL_EXT_primitive_bounding_box,GL_EXT_protected_textures,GL_EXT_robustness,GL_EXT_sRGB," ++
  "GL_EXT_sRGB_write_control,GL_EXT_shader_framebuffer_fetch,GL_EXT_shader_io_blocks," ++
  "GL_EXT_shader_non_constant_global_initializers,GL_EXT_tessellation_shader," ++
  "GL_EXT_texture_border_clamp,GL_EXT_texture_buffer,GL_EXT_texture_cube_map_array," ++
  "GL_EXT_texture_filter_anisotropic,GL_EXT_texture_format_BGRA8888,GL_EXT_texture_norm16," ++
  "GL_EXT_texture_sRGB_R8,GL_EXT_texture_sRGB_decode,GL_EXT_texture_type_2_10_10_10_REV," ++
  "GL_KHR_blend_equation_advanced,GL_KHR_blend_equation_advanced_coherent,GL_KHR_debug," ++
  "GL_KHR_no_error,GL_KHR_texture_compression_astc_hdr,GL_KHR_texture_compression_astc_ldr," ++
  "GL_NV_shader_noperspective_interpolation,GL_OES_EGL_image,GL_OES_EGL_image_external," ++
  "GL_OES_EGL_image_external_essl3,GL_OES_EGL_sync,GL_OES_blend_equation_separate," ++
  "GL_OES_blend_func_separate,GL_OES_blend_subtract,GL_OES_compressed_ETC1_RGB8_texture," ++
  "GL_OES_compressed_paletted_texture,GL_OES_depth24,GL_OES_depth_texture," ++
  "GL_OES_depth_texture_cube_map,GL_OES_draw_texture,GL_OES_element_index_uint," ++
  "GL_OES_framebuffer_object,GL_OES_get_program_binary,GL_OES_matrix_palette," ++
  "GL_OES_packed_depth_stencil,GL_OES_point_size_array,GL_OES_point_sprite," ++
  "GL_OES_read_format,GL_OES_rgb8_rgba8,GL_OES_sample_shading,GL_OES_sample_variables," ++
  "GL_OES_shader_image_atomic,GL_OES_shader_multisample_interpolation," ++
  "GL_OES_standard_derivatives,GL_OES_stencil_wrap,GL_OES_surfaceless_context," ++
  "GL_OES_texture_3D,GL_OES_texture_compression_astc,GL_OES_texture_cube_map," ++
  "GL_OES_texture_env_crossbar,GL_OES_texture_float,GL_OES_texture_float_linear," ++
  "GL_OES_texture_half_float,GL_OES_texture_half_float_linear," ++
  "GL_OES_texture_mirrored_repeat,GL_OES_texture_npot,GL_OES_texture_stencil8," ++
  "GL_OES_texture_storage_multisample_2d_array,GL_OES_vertex_array_object," ++
  "GL_OES_vertex_half_float,GL_OVR_multiview,GL_OVR_multiview2," ++
  "GL_OVR_multiview_multisampled_render_to_texture,GL_QCOM_alpha_test,GL_QCOM_extended_get," ++
  "GL_QCOM_framebuffer_foveated,GL_QCOM_shader_framebuffer_fetch_noncoherent," ++
  "GL_QCOM_tiled_rendering"

/-- The `checkinReq` message built at the start of `getGsfId`, as a function of
the reading `now` of `time.Now()`.  Every field but `Build.Timestamp` is a
constant of the program. -/
def checkinRequest (now : Time) : AndroidCheckinRequest :=
  let locale := "fi"
  let timezone := "Europe/Helsinki"
  let version : Int := 3
  let fragment : Int := 0
  let lastCheckinMsec : Int := 0
  let userNumber : Int := 0
  let cellOperator := "22210"
  let simOperator := "22210"
  let roaming := "mobile-notroaming"
  let checkin : AndroidCheckinProto :=
    { Build := some
        { Id := some "unknown"
          Product := some "unknown"
          Carrier := some "unknown"
          Radio := some "unknown"
          Bootloader := some "unknown"
          Client := some "android-google"
          Timestamp := some now.Second
          GoogleServices := some 204713063
          Device := some "unknown"
          SdkVersion := some 30
          Model := some "unknown"
          Manufacturer := some "unknown"
          BuildProduct := some "unknown"
          OtaInstalled := some true }
      LastCheckinMsec := some lastCheckinMsec
      CellOperator := some cellOperator
      SimOperator := some simOperator
      Roaming := some roaming
      UserNumber := some userNumber }
  { Checkin := some checkin
    Locale := some locale
    TimeZone := some timezone
    Version := some version
    DeviceConfiguration := some
      { TouchScreen := some 3
        Keyboard := some 2
        Navigation := some 2
        ScreenLayout := some 2
        HasHardKeyboard := some true
        HasFiveWayNavigation := some true
        ScreenDensity := some 402
        GlEsVersion := some 196610
        SystemSharedLibrary := systemSharedLibraryCsv.splitOn ","
        SystemAvailableFeature := systemAvailableFeatureCsv.splitOn ","
        NativePlatform := ["armeabi-v7a", "armeabi", "x86", "x86_64", "arm64-v8a"]
        ScreenWidth := some 2340
        ScreenHeight := some 1080
        SystemSupportedLocale := systemSupportedLocaleCsv.splitOn ","
        GlExtension := glExtensionCsv.splitOn ","
        MaxApkDownloadSizeMb := some (100 * 100) }
    Fragment := some fragment }

/-- The build timestamp that a checkin request constructed at `now` carries. -/
def buildTimestamp (now : Time) : Option Int :=
  ((checkinRequest now).Checkin.bind (fun c => c.Build)).bind (fun b => b.Timestamp)

/-! ## Registration -/

/-- The error of `fmt.Errorf("checkin error: %s %d", resp.Status, resp.StatusCode)`. -/
def checkinError (resp : Response) : Error :=
  "checkin error: " ++ resp.Status ++ " " ++ toString resp.StatusCode

/-- Method `getGsfId`: get the "androidId", the device specific GSF id.  The
result is the outcome of the call together with the calls it made. -/
def getGsfId (env : Env) (_client : Client) : Outcome (String × Option Error) × List Call :=
  let checkinReq := checkinRequest env.Now
  match env.Marshal checkinReq with
  | .error err => (.returned ("", some err), [])
  | .ok rawMsg =>
    let post1 := Call.Post (CheckinURL env) "application/x-protobuf" rawMsg
    match env.Post 0 (CheckinURL env) "application/x-protobuf" rawMsg with
    | .error err => (.returned ("", some err), [post1])
    | .ok resp =>
      match resp.Body with
      | .error err => (.returned ("", some err), [post1])
      | .ok body =>
        match env.Unmarshal body with
        | .error err => (.returned ("", some err), [post1])
        | .ok checkinResp =>
          match env.Marshal checkinReq with
          | .error err => (.returned ("", some err), [post1])
          | .ok rawMsg2 =>
            let post2 := Call.Post (CheckinURL env) "application/x-protobuf" rawMsg2
            match env.Post 1 (CheckinURL env) "application/x-protobuf" rawMsg2 with
            | .error err => (.returned ("", some err), [post1, post2])
            | .ok resp2 =>
              if resp2.StatusCode ≠ 200 then
                (.returned ("", some (checkinError resp2)), [post1, post2])
              else
                -- strconv.FormatUint(*checkinResp.AndroidId, 16)
                match checkinResp.AndroidId with
                | none => (.panicked "runtime error: invalid memory address or nil pointer dereference", [post1, post2])
                | some androidId => (.returned (FormatUint androidId 16, none), [post1, post2])

/-! ## Orchestration -/

/-- The error `Authenticate` returns when no mode can be selected. -/
def authModeError : Error :=
  "could not select authentication type. " ++
    "Did you specify the email and the password or alternatively GSFID and authSubToken"

/-- What a call of `Authenticate` leaves behind: how it ended, the client (whose
`config` it writes through the pointer) and the calls it made, in order. -/
structure AuthRun where
  result : Outcome (Option Error)
  client : Client
  trace : List Call
deriving DecidableEq, Repr

/-- Method `Authenticate`. -/
def Authenticate (env : Env) (client : Client) : AuthRun :=
  let authType := getAuthType client
  if authType = Unknown then
    ⟨.returned (some authModeError), client, []⟩
  else if authType = EmailPassword then
    let t1 := [Call.encryptCredentials client.config.Email client.config.Password]
    match env.encryptCredentials client.config.Email client.config.Password none with
    | .error err => ⟨.returned (some err), client, t1⟩
    | .ok encryptedPasswd =>
      match getGsfId env client with
      | (.panicked reason, calls) => ⟨.panicked reason, client, t1 ++ calls⟩
      | (.returned (gsfId, err), calls) =>
        -- client.config.GsfId, err = client.getGsfId()
        let client := { client with config := { client.config with GsfId := gsfId } }
        let t2 := t1 ++ calls
        match err with
        | some err => ⟨.returned (some err), client, t2⟩
        | none =>
          -- client.config.AuthSubToken, err = getPlayStoreAuthSubToken(...)
          let t3 := t2 ++ [Call.getPlayStoreAuthSubToken client.config.Email encryptedPasswd]
          match env.getPlayStoreAuthSubToken client.config.Email encryptedPasswd with
          | (authSubToken, err) =>
            let client :=
              { client with config := { client.config with AuthSubToken := authSubToken } }
            match err with
            | some err => ⟨.returned (some err), client, t3⟩
            | none =>
              let t4 := t3 ++ [Call.SaveToken keyring.TokenKind.GSFID client.config.GsfId]
              match env.SaveToken keyring.TokenKind.GSFID client.config.GsfId with
              | some err => ⟨.returned (some err), client, t4⟩
              | none =>
                let t5 := t4 ++
                  [Call.SaveToken keyring.TokenKind.AuthSubToken client.config.AuthSubToken]
                match env.SaveToken keyring.TokenKind.AuthSubToken client.config.AuthSubToken with
                | some err => ⟨.returned (some err), client, t5⟩
                | none => ⟨.returned none, client, t5⟩
  else
    ⟨.returned none, client, []⟩

/-! ## Vocabulary of the properties -/

/-- The stage of `Authenticate` a call belongs to: credential encryption (0),
checkin registration (1), token exchange (2), token store (3). -/
def Call.stage : Call → Nat
  | .encryptCredentials _ _ => 0
  | .Post _ _ _ => 1
  | .getPlayStoreAuthSubToken _ _ => 2
  | .SaveToken _ _ => 3

/-- Recognises the writes to the token store. -/
def Call.isSaveToken : Call → Bool
  | .SaveToken _ _ => true
  | _ => false

/-- Recognises the token exchange. -/
def Call.isExchange : Call → Bool
  | .getPlayStoreAuthSubToken _ _ => true
  | _ => false

/-- The lowercase hexadecimal digits. -/
def lowerHexDigits : List Char := "0123456789abcdef".toList

/-- The value of a lowercase hexadecimal digit. -/
def hexDigitValue (c : Char) : Option Nat :=
  if '0' ≤ c ∧ c ≤ '9' then some (c.toNat - '0'.toNat)
  else if 'a' ≤ c ∧ c ≤ 'f' then some (c.toNat - 'a'.toNat + 10)
  else none

/-- One step of reading a base 16 numeral from the left. -/
def parseHexStep (acc : Option Nat) (c : Char) : Option Nat :=
  match acc, hexDigitValue c with
  | some n, some d => some (16 * n + d)
  | _, _ => none

/-- Reading a non-empty string of lowercase hexadecimal digits as a number in
base 16; `none` for the empty string and when a character is not a digit. -/
def parseHex (s : String) : Option Nat :=
  match s.data with
  | [] => none
  | cs => cs.foldl parseHexStep (some 0)

/-! ## Scenarios -/

/-- The end-to-end scenario: the first checkin response carries the device
identifier `0x1a2b3c`, the second checkin answers 200, the exchange yields
`abcDEF123`, and the token store accepts both writes. -/
def scenarioEnv : Env where
  APIBaseURL := "https://play.test"
  Now := ⟨1612137600⟩
  Marshal := fun _ => .ok [10, 0]
  Post := fun _ _ _ _ => .ok ⟨"200 OK", 200, .ok [57, 60, 43, 26, 0, 0, 0, 0, 0]⟩
  Unmarshal := fun _ => .ok ⟨some 0x1a2b3c⟩
  encryptCredentials := fun _ _ _ => .ok "AFcb4KQ"
  getPlayStoreAuthSubToken := fun _ _ => ("abcDEF123", none)
  SaveToken := fun _ _ => none

/-- The client of the end-to-end scenario. -/
def scenarioClient : Client := ⟨⟨"user@example.com", "hunter2", "", ""⟩, ""⟩

/-- The end-to-end scenario with an authorization endpoint that rejects the
credentials. -/
def rejectingEnv : Env where
  APIBaseURL := "https://play.test"
  Now := ⟨1612137600⟩
  Marshal := fun _ => .ok [10, 0]
  Post := fun _ _ _ _ => .ok ⟨"200 OK", 200, .ok [57, 60, 43, 26, 0, 0, 0, 0, 0]⟩
  Unmarshal := fun _ => .ok ⟨some 0x1a2b3c⟩
  encryptCredentials := fun _ _ _ => .ok "AFcb4KQ"
  getPlayStoreAuthSubToken := fun _ _ => ("", some "auth: 403 Forbidden")
  SaveToken := fun _ _ => none

/-- The end-to-end scenario with a second checkin that is answered 503. -/
def refusingEnv : Env where
  APIBaseURL := "https://play.test"
  Now := ⟨1612137600⟩
  Marshal := fun _ => .ok [10, 0]
  Post := fun n _ _ _ =>
    if n = 0 then .ok ⟨"200 OK", 200, .ok [57, 60, 43, 26, 0, 0, 0, 0, 0]⟩
    else .ok ⟨"503 Service Unavailable", 503, .ok []⟩
  Unmarshal := fun _ => .ok ⟨some 0x1a2b3c⟩
  encryptCredentials := fun _ _ _ => .ok "AFcb4KQ"
  getPlayStoreAuthSubToken := fun _ _ => ("abcDEF123", none)
  SaveToken := fun _ _ => none

/-- A checkin endpoint whose first response has an empty body, which decodes to
a message without `AndroidId` (every field of the message is optional), and
whose second response is 200. -/
def emptyBodyEnv : Env where
  APIBaseURL := "https://play.test"
  Now := ⟨1612137600⟩
  Marshal := fun _ => .ok [10, 0]
  Post := fun _ _ _ _ => .ok ⟨"200 OK", 200, .ok []⟩
  Unmarshal := fun _ => .ok ⟨none⟩
  encryptCredentials := fun _ _ _ => .ok "AFcb4KQ"
  getPlayStoreAuthSubToken := fun _ _ => ("abcDEF123", none)
  SaveToken := fun _ _ => none

/-- A client that has no credentials at all. -/
def blankClient : Client := ⟨⟨"", "", "", ""⟩, ""⟩

/-- A client that holds saved tokens and an e-mail address but no password. -/
def tokenClient : Client := ⟨⟨"user@example.com", "", "1a2b3c", "abcDEF123"⟩, ""⟩

/-! ## Mode selection: properties -/

theorem emailPassword_ne_unknown : EmailPassword ≠ Unknown := by decide

theorem token_ne_unknown : Token ≠ Unknown := by decide

theorem token_ne_emailPassword : Token ≠ EmailPassword := by decide

/-- Mode selection in the email/password case. -/
theorem getAuthType_of_credentials (client : Client)
    (h : client.config.Email ≠ "" ∧ client.config.Password ≠ "") :
    getAuthType client = EmailPassword := by
  unfold getAuthType
  rw [if_pos h]

/-- Mode selection in the token case. -/
theorem getAuthType_of_tokens (client : Client)
    (h : ¬ (client.config.Email ≠ "" ∧ client.config.Password ≠ ""))
    (h2 : client.config.GsfId ≠ "" ∧ client.config.AuthSubToken ≠ "") :
    getAuthType client = Token := by
  unfold getAuthType
  rw [if_neg h, if_pos h2]

/-- Mode selection when neither pair is complete. -/
theorem getAuthType_of_neither (client : Client)
    (h : ¬ (client.config.Email ≠ "" ∧ client.config.Password ≠ ""))
    (h2 : ¬ (client.config.GsfId ≠ "" ∧ client.config.AuthSubToken ≠ "")) :
    getAuthType client = Unknown := by
  unfold getAuthType
  rw [if_neg h, if_neg h2]

/-- C1: the mode chosen by `getAuthType` is `EmailPassword` exactly when `Email`
and `Password` are both non-empty, `Token` exactly when that fails and `GsfId`
and `AuthSubToken` are both non-empty, and `Unknown` exactly in the remaining
cases; with all four fields set the mode is `EmailPassword`. -/
theorem getAuthType_exact (client : Client) :
    (getAuthType client = EmailPassword ↔
      (client.config.Email ≠ "" ∧ client.config.Password ≠ "")) ∧
    (getAuthType client = Token ↔
      (¬ (client.config.Email ≠ "" ∧ client.config.Password ≠ "") ∧
        (client.config.GsfId ≠ "" ∧ client.config.AuthSubToken ≠ ""))) ∧
    (getAuthType client = Unknown ↔
      (¬ (client.config.Email ≠ "" ∧ client.config.Password ≠ "") ∧
        ¬ (client.config.GsfId ≠ "" ∧ client.config.AuthSubToken ≠ ""))) ∧
    ((client.config.Email ≠ "" ∧ client.config.Password ≠ "" ∧
        client.config.GsfId ≠ "" ∧ client.config.AuthSubToken ≠ "") →
      getAuthType client = EmailPassword) := by
  by_cases h : client.config.Email ≠ "" ∧ client.config.Password ≠ ""
  · have e := getAuthType_of_credentials client h
    refine ⟨?_, ?_, ?_, ?_⟩
    · exact ⟨fun _ => h, fun _ => e⟩
    · constructor
      · intro t
        rw [e] at t
        exact absurd t.symm token_ne_emailPassword
      · intro t
        exact absurd h t.1
    · constructor
      · intro t
        rw [e] at t
        exact absurd t emailPassword_ne_unknown
      · intro t
        exact absurd h t.1
    · exact fun _ => e
  · by_cases h2 : client.config.GsfId ≠ "" ∧ client.config.AuthSubToken ≠ ""
    · have e := getAuthType_of_tokens client h h2
      refine ⟨?_, ?_, ?_, ?_⟩
      · constructor
        · intro t
          rw [e] at t
          exact absurd t token_ne_emailPassword
        · intro t
          exact absurd t h
      · exact ⟨fun _ => ⟨h, h2⟩, fun _ => e⟩
      · constructor
        · intro t
          rw [e] at t
          exact absurd t token_ne_unknown
        · intro t
          exact absurd h2 t.2
      · intro t
        exact absurd ⟨t.1, t.2.1⟩ h
    · have e := getAuthType_of_neither client h h2
      refine ⟨?_, ?_, ?_, ?_⟩
      · constructor
        · intro t
          rw [e] at t
          exact absurd t.symm emailPassword_ne_unknown
        · intro t
          exact absurd t h
      · constructor
        · intro t
          rw [e] at t
          exact absurd t.symm token_ne_unknown
        · intro t
          exact absurd t.2 h2
      · exact ⟨fun _ => ⟨h, h2⟩, fun _ => e⟩
      · intro t
        exact absurd ⟨t.1, t.2.1⟩ h

/-! ## Orchestration: the modes that make no call -/

/-- `Authenticate` when the mode is `Unknown`. -/
theorem Authenticate_of_unknown (env : Env) (client : Client)
    (h : getAuthType client = Unknown) :
    Authenticate env client = ⟨.returned (some authModeError), client, []⟩ := by
  unfold Authenticate
  simp only [h, if_true]

/-- `Authenticate` when the mode is `Token`. -/
theorem Authenticate_of_token (env : Env) (client : Client)
    (h : getAuthType client = Token) :
    Authenticate env client = ⟨.returned none, client, []⟩ := by
  unfold Authenticate
  simp only [h, if_neg token_ne_unknown, if_neg token_ne_emailPassword]

/-- C2: when at least one of `Email`, `Password` is empty and at least one of
`GsfId`, `AuthSubToken` is empty, `Authenticate` returns the auth-mode error
and calls no collaborator at all (no encryptor, no checkin POST, no token
exchange, no token store). -/
theorem Authenticate_unknown_mode (env : Env) (client : Client)
    (h : client.config.Email = "" ∨ client.config.Password = "")
    (h2 : client.config.GsfId = "" ∨ client.config.AuthSubToken = "") :
    (Authenticate env client).result = .returned (some authModeError) ∧
    (Authenticate env client).trace = [] := by
  have e : getAuthType client = Unknown := by
    apply getAuthType_of_neither
    · rintro ⟨a, b⟩
      rcases h with h | h
      · exact a h
      · exact b h
    · rintro ⟨a, b⟩
      rcases h2 with h2 | h2
      · exact a h2
      · exact b h2
  rw [Authenticate_of_unknown env client e]
  exact ⟨rfl, rfl⟩

/-- C3: with `GsfId` and `AuthSubToken` both non-empty and `Email`, `Password`
not both set, `Authenticate` returns nil, makes no call (no network call, no
token-store write) and leaves the client, hence every field of its
configuration, as it was. -/
theorem Authenticate_token_mode (env : Env) (client : Client)
    (h : ¬ (client.config.Email ≠ "" ∧ client.config.Password ≠ ""))
    (hg : client.config.GsfId ≠ "") (ha : client.config.AuthSubToken ≠ "") :
    (Authenticate env client).result = .returned none ∧
    (Authenticate env client).trace = [] ∧
    (Authenticate env client).client = client ∧
    (Authenticate env client).client.config.Email = client.config.Email ∧
    (Authenticate env client).client.config.Password = client.config.Password ∧
    (Authenticate env client).client.config.GsfId = client.config.GsfId ∧
    (Authenticate env client).client.config.AuthSubToken = client.config.AuthSubToken := by
  rw [Authenticate_of_token env client (getAuthType_of_tokens client h ⟨hg, ha⟩)]
  exact ⟨rfl, rfl, rfl, rfl, rfl, rfl, rfl⟩

/-! ## Registration: the calls it makes -/

/-- Every call made by `getGsfId` is a POST. -/
theorem getGsfId_calls_are_posts (env : Env) (client : Client) :
    ∀ c ∈ (getGsfId env client).2, c.stage = 1 := by
  unfold getGsfId
  dsimp only
  repeat' split
  all_goals simp [Call.stage]

/-! ## Orchestration: the email/password pipeline, case by case -/

/-- The pipeline stops at a failing encryptor. -/
theorem Authenticate_encrypt_fails (env : Env) (client : Client) (e : Error)
    (hm : getAuthType client = EmailPassword)
    (he : env.encryptCredentials client.config.Email client.config.Password none = .error e) :
    Authenticate env client =
      ⟨.returned (some e), client,
        [Call.encryptCredentials client.config.Email client.config.Password]⟩ := by
  unfold Authenticate
  simp only [hm, if_neg emailPassword_ne_unknown, if_true, he]

/-- The pipeline stops at a failing registration, after storing what
registration returned in `GsfId`. -/
theorem Authenticate_register_fails (env : Env) (client : Client) (enc gsf : String)
    (e : Error) (calls : List Call)
    (hm : getAuthType client = EmailPassword)
    (he : env.encryptCredentials client.config.Email client.config.Password none = .ok enc)
    (hr : getGsfId env client = (.returned (gsf, some e), calls)) :
    Authenticate env client =
      ⟨.returned (some e), { client with config := { client.config with GsfId := gsf } },
        [Call.encryptCredentials client.config.Email client.config.Password] ++ calls⟩ := by
  unfold Authenticate
  simp only [hm, if_neg emailPassword_ne_unknown, if_true, he, hr]

/-- A panic of registration ends the run. -/
theorem Authenticate_register_panics (env : Env) (client : Client) (enc reason : String)
    (calls : List Call)
    (hm : getAuthType client = EmailPassword)
    (he : env.encryptCredentials client.config.Email client.config.Password none = .ok enc)
    (hr : getGsfId env client = (.panicked reason, calls)) :
    Authenticate env client =
      ⟨.panicked reason, client,
        [Call.encryptCredentials client.config.Email client.config.Password] ++ calls⟩ := by
  unfold Authenticate
  simp only [hm, if_neg emailPassword_ne_unknown, if_true, he, hr]

/-- The pipeline stops at a failing exchange, after storing what the exchange
returned in `AuthSubToken`. -/
theorem Authenticate_exchange_fails (env : Env) (client : Client) (enc gsf tok : String)
    (e : Error) (calls : List Call)
    (hm : getAuthType client = EmailPassword)
    (he : env.encryptCredentials client.config.Email client.config.Password none = .ok enc)
    (hr : getGsfId env client = (.returned (gsf, none), calls))
    (hx : env.getPlayStoreAuthSubToken client.config.Email enc = (tok, some e)) :
    Authenticate env client =
      ⟨.returned (some e),
        { client with config := { client.config with GsfId := gsf, AuthSubToken := tok } },
        [Call.encryptCredentials client.config.Email client.config.Password] ++ calls ++
          [Call.getPlayStoreAuthSubToken client.config.Email enc]⟩ := by
  unfold Authenticate
  simp only [hm, if_neg emailPassword_ne_unknown, if_true, he, hr, hx]

/-- The pipeline stops at a failing first store write. -/
theorem Authenticate_save_gsfId_fails (env : Env) (client : Client) (enc gsf tok : String)
    (e : Error) (calls : List Call)
    (hm : getAuthType client = EmailPassword)
    (he : env.encryptCredentials client.config.Email client.config.Password none = .ok enc)
    (hr : getGsfId env client = (.returned (gsf, none), calls))
    (hx : env.getPlayStoreAuthSubToken client.config.Email enc = (tok, none))
    (h1 : env.SaveToken keyring.TokenKind.GSFID gsf = some e) :
    Authenticate env client =
      ⟨.returned (some e),
        { client with config := { client.config with GsfId := gsf, AuthSubToken := tok } },
        [Call.encryptCredentials client.config.Email client.config.Password] ++ calls ++
          [Call.getPlayStoreAuthSubToken client.config.Email enc] ++
          [Call.SaveToken keyring.TokenKind.GSFID gsf]⟩ := by
  unfold Authenticate
  simp only [hm, if_neg emailPassword_ne_unknown, if_true, he, hr, hx, h1]

/-- The pipeline stops at a failing second store write. -/
theorem Authenticate_save_token_fails (env : Env) (client : Client) (enc gsf tok : String)
    (e : Error) (calls : List Call)
    (hm : getAuthType client = EmailPassword)
    (he : env.encryptCredentials client.config.Email client.config.Password none = .ok enc)
    (hr : getGsfId env client = (.returned (gsf, none), calls))
    (hx : env.getPlayStoreAuthSubToken client.config.Email enc = (tok, none))
    (h1 : env.SaveToken keyring.TokenKind.GSFID gsf = none)
    (h2 : env.SaveToken keyring.TokenKind.AuthSubToken tok = some e) :
    Authenticate env client =
      ⟨.returned (some e),
        { client with config := { client.config with GsfId := gsf, AuthSubToken := tok } },
        [Call.encryptCredentials client.config.Email client.config.Password] ++ calls ++
          [Call.getPlayStoreAuthSubToken client.config.Email enc] ++
          [Call.SaveToken keyring.TokenKind.GSFID gsf] ++
          [Call.SaveToken keyring.TokenKind.AuthSubToken tok]⟩ := by
  unfold Authenticate
  simp only [hm, if_neg emailPassword_ne_unknown, if_true, he, hr, hx, h1, h2]

/-- The pipeline when every step succeeds. -/
theorem Authenticate_all_succeed (env : Env) (client : Client) (enc gsf tok : String)
    (calls : List Call)
    (hm : getAuthType client = EmailPassword)
    (he : env.encryptCredentials client.config.Email client.config.Password none = .ok enc)
    (hr : getGsfId env client = (.returned (gsf, none), calls))
    (hx : env.getPlayStoreAuthSubToken client.config.Email enc = (tok, none))
    (h1 : env.SaveToken keyring.TokenKind.GSFID gsf = none)
    (h2 : env.SaveToken keyring.TokenKind.AuthSubToken tok = none) :
    Authenticate env client =
      ⟨.returned none,
        { client with config := { client.config with GsfId := gsf, AuthSubToken := tok } },
        [Call.encryptCredentials client.config.Email client.config.Password] ++ calls ++
          [Call.getPlayStoreAuthSubToken client.config.Email enc] ++
          [Call.SaveToken keyring.TokenKind.GSFID gsf] ++
          [Call.SaveToken keyring.TokenKind.AuthSubToken tok]⟩ := by
  unfold Authenticate
  simp only [hm, if_neg emailPassword_ne_unknown, if_true, he, hr, hx, h1, h2]

/-! ## `strconv.FormatUint` in base 16 -/

/-- The first sixteen entries of the digit table: each is a lowercase
hexadecimal digit of the right value, and only entry 0 is the character 0. -/
theorem digits_hex : ∀ d, d < 16 →
    (digits.getD d '0' ∈ lowerHexDigits ∧
      hexDigitValue (digits.getD d '0') = some d ∧
      (d ≠ 0 → digits.getD d '0' ≠ '0')) := by
  decide

/-- The digit loop writes in front of the buffer it is given. -/
theorem formatBits_buffer (fuel : Nat) : ∀ (u b : Nat) (a : List Char),
    formatBits fuel u b a = formatBits fuel u b [] ++ a := by
  induction fuel with
  | zero => intro u b a; simp [formatBits]
  | succ n ih =>
    intro u b a
    simp only [formatBits]
    split
    · rw [ih (u / b) b (digits.getD (u % b) '0' :: a), ih (u / b) b [digits.getD (u % b) '0']]
      simp
    · simp

/-- The digit loop in base 16 on a number of at most `fuel + 1` hexadecimal
digits: it does not run out of iterations, and what it writes is the numeral
of the number. -/
theorem formatBits_hex (fuel : Nat) : ∀ u, u < 16 ^ (fuel + 1) →
    (formatBits (fuel + 1) u 16 [] ≠ [] ∧
      (∀ c ∈ formatBits (fuel + 1) u 16 [], c ∈ lowerHexDigits) ∧
      (formatBits (fuel + 1) u 16 []).foldl parseHexStep (some 0) = some u ∧
      (u ≠ 0 → (formatBits (fuel + 1) u 16 []).head? ≠ some '0') ∧
      (u = 0 → formatBits (fuel + 1) u 16 [] = ['0'])) := by
  induction fuel with
  | zero =>
    intro u hu
    have hu16 : u < 16 := by simpa using hu
    obtain ⟨d1, d2, d3⟩ := digits_hex u hu16
    have e : formatBits (0 + 1) u 16 [] = [digits.getD u '0'] := by
      simp only [formatBits]
      rw [if_neg (by omega)]
    rw [e]
    refine ⟨by simp, ?_, ?_, ?_, ?_⟩
    · intro c hc
      rw [List.mem_singleton] at hc
      rw [hc]
      exact d1
    · simp only [List.foldl_cons, List.foldl_nil, parseHexStep, d2]
      congr 1
      omega
    · intro h0
      simpa using d3 h0
    · intro h0
      subst h0
      rfl
  | succ n ih =>
    intro u hu
    by_cases hge : u ≥ 16
    · have hq : u / 16 < 16 ^ (n + 1) := by
        apply Nat.div_lt_of_lt_mul
        rw [← Nat.pow_succ']
        exact hu
      have hq0 : u / 16 ≠ 0 := by
        have : 1 ≤ u / 16 := (Nat.le_div_iff_mul_le (by decide)).2 (by omega)
        omega
      obtain ⟨i1, i2, i3, i4, _⟩ := ih (u / 16) hq
      obtain ⟨d1, d2, _⟩ := digits_hex (u % 16) (Nat.mod_lt u (by decide))
      have e : formatBits (n + 1 + 1) u 16 [] =
          formatBits (n + 1) (u / 16) 16 [] ++ [digits.getD (u % 16) '0'] := by
        rw [← formatBits_buffer (n + 1) (u / 16) 16 [digits.getD (u % 16) '0']]
        conv => lhs; unfold formatBits
        rw [if_pos hge]
      rw [e]
      refine ⟨by simp, ?_, ?_, ?_, ?_⟩
      · intro c hc
        rcases List.mem_append.1 hc with hc | hc
        · exact i2 c hc
        · rw [List.mem_singleton] at hc
          rw [hc]
          exact d1
      · rw [List.foldl_append, i3]
        simp only [List.foldl_cons, List.foldl_nil, parseHexStep, d2]
        congr 1
        omega
      · intro _
        rw [List.head?_append_of_ne_nil _ i1]
        exact i4 hq0
      · intro h0
        omega
    · have hu16 : u < 16 := by omega
      obtain ⟨d1, d2, d3⟩ := digits_hex u hu16
      have e : formatBits (n + 1 + 1) u 16 [] = [digits.getD u '0'] := by
        conv => lhs; unfold formatBits
        rw [if_neg hge]
      rw [e]
      refine ⟨by simp, ?_, ?_, ?_, ?_⟩
      · intro c hc
        rw [List.mem_singleton] at hc
        rw [hc]
        exact d1
      · simp only [List.foldl_cons, List.foldl_nil, parseHexStep, d2]
        congr 1
        omega
      · intro h0
        simpa using d3 h0
      · intro h0
        subst h0
        rfl

/-- The hexadecimal numeral of a 64-bit unsigned number as `FormatUint` writes
it: not empty, lowercase hexadecimal digits only, no leading zero, and read
back in base 16 it is the number. -/
theorem FormatUint_hex (x : Nat) (hx : x < 2 ^ 64) :
    (FormatUint x 16).data ≠ [] ∧
    (∀ c ∈ (FormatUint x 16).data, c ∈ lowerHexDigits) ∧
    (1 < (FormatUint x 16).data.length → (FormatUint x 16).data.head? ≠ some '0') ∧
    parseHex (FormatUint x 16) = some x := by
  have hx16 : x < 16 ^ (63 + 1) := by
    have : (2 : Nat) ^ 64 ≤ 16 ^ (63 + 1) := by norm_num
    omega
  obtain ⟨h1, h2, h3, h4, h5⟩ := formatBits_hex 63 x hx16
  have e : (FormatUint x 16).data = formatBits (63 + 1) x 16 [] := rfl
  refine ⟨by rw [e]; exact h1, by rw [e]; exact h2, ?_, ?_⟩
  · rw [e]
    intro hlen
    by_cases h0 : x = 0
    · rw [h5 h0] at hlen
      simp at hlen
    · exact h4 h0
  · unfold parseHex
    rw [e]
    split
    · next hnil => exact absurd hnil h1
    · exact h3

/-! ## Registration: its result -/

/-- Registration when both checkins go through and the second is answered 200. -/
theorem getGsfId_of_ok (env : Env) (client : Client) (raw body : Bytes)
    (resp1 resp2 : Response) (checkinResp : AndroidCheckinResponse) (x : Nat)
    (hm : env.Marshal (checkinRequest env.Now) = .ok raw)
    (hp1 : env.Post 0 (CheckinURL env) "application/x-protobuf" raw = .ok resp1)
    (hb : resp1.Body = .ok body)
    (hu : env.Unmarshal body = .ok checkinResp)
    (hid : checkinResp.AndroidId = some x)
    (hp2 : env.Post 1 (CheckinURL env) "application/x-protobuf" raw = .ok resp2)
    (hs : resp2.StatusCode = 200) :
    getGsfId env client =
      (.returned (FormatUint x 16, none),
        [Call.Post (CheckinURL env) "application/x-protobuf" raw,
         Call.Post (CheckinURL env) "application/x-protobuf" raw]) := by
  unfold getGsfId
  simp only [hm, hp1, hb, hu, hp2, hs, hid, ne_eq, not_true_eq_false, if_false]

/-- Registration when both checkins go through and the second is not answered
200. -/
theorem getGsfId_of_refused (env : Env) (client : Client) (raw body : Bytes)
    (resp1 resp2 : Response) (checkinResp : AndroidCheckinResponse)
    (hm : env.Marshal (checkinRequest env.Now) = .ok raw)
    (hp1 : env.Post 0 (CheckinURL env) "application/x-protobuf" raw = .ok resp1)
    (hb : resp1.Body = .ok body)
    (hu : env.Unmarshal body = .ok checkinResp)
    (hp2 : env.Post 1 (CheckinURL env) "application/x-protobuf" raw = .ok resp2)
    (hs : resp2.StatusCode ≠ 200) :
    getGsfId env client =
      (.returned ("", some (checkinError resp2)),
        [Call.Post (CheckinURL env) "application/x-protobuf" raw,
         Call.Post (CheckinURL env) "application/x-protobuf" raw]) := by
  unfold getGsfId
  simp only [hm, hp1, hb, hu, hp2, hs, ne_eq, not_false_eq_true, if_true]

/-- C7: when marshalling succeeds, both checkin POSTs succeed at transport
level, and the body of the first response is read and decodes to a
`CheckinResponse` whose `AndroidId` is the 64-bit unsigned number `x`, then
`getGsfId` returns, if the second response has status 200, no error and the
lowercase hexadecimal numeral of `x` (a non-empty string of the digits
0-9a-f, without leading zero, that reads back in base 16 as `x`), and, if the
second response has another status, an error and the empty identifier. -/
theorem getGsfId_result (env : Env) (client : Client) (raw body : Bytes)
    (resp1 resp2 : Response) (checkinResp : AndroidCheckinResponse) (x : Nat)
    (hm : env.Marshal (checkinRequest env.Now) = .ok raw)
    (hp1 : env.Post 0 (CheckinURL env) "application/x-protobuf" raw = .ok resp1)
    (hb : resp1.Body = .ok body)
    (hu : env.Unmarshal body = .ok checkinResp)
    (hid : checkinResp.AndroidId = some x)
    (hx : x < 2 ^ 64)
    (hp2 : env.Post 1 (CheckinURL env) "application/x-protobuf" raw = .ok resp2) :
    (resp2.StatusCode = 200 →
      ∃ gsfId : String,
        (getGsfId env client).1 = .returned (gsfId, none) ∧
        gsfId = FormatUint x 16 ∧
        gsfId.data ≠ [] ∧
        (∀ c ∈ gsfId.data, c ∈ lowerHexDigits) ∧
        (1 < gsfId.data.length → gsfId.data.head? ≠ some '0') ∧
        parseHex gsfId = some x) ∧
    (resp2.StatusCode ≠ 200 →
      (getGsfId env client).1 = .returned ("", some (checkinError resp2))) := by
  constructor
  · intro hs
    obtain ⟨f1, f2, f3, f4⟩ := FormatUint_hex x hx
    refine ⟨FormatUint x 16, ?_, rfl, f1, f2, f3, f4⟩
    rw [getGsfId_of_ok env client raw body resp1 resp2 checkinResp x hm hp1 hb hu hid hp2 hs]
  · intro hs
    rw [getGsfId_of_refused env client raw body resp1 resp2 checkinResp hm hp1 hb hu hp2 hs]

/-- C7, on the end-to-end scenario: the identifier `0x1a2b3c` of the first
response and a second response with status 200 give the identifier `1a2b3c`
and no error; a second response with status 503 gives the empty identifier
and the checkin error. -/
theorem getGsfId_result_witness :
    scenarioEnv.Unmarshal [57, 60, 43, 26, 0, 0, 0, 0, 0] = .ok ⟨some 0x1a2b3c⟩ ∧
    (∃ gsfId : String,
      (getGsfId scenarioEnv scenarioClient).1 = .returned (gsfId, none) ∧
      gsfId = FormatUint 0x1a2b3c 16 ∧
      gsfId.data ≠ [] ∧
      (∀ c ∈ gsfId.data, c ∈ lowerHexDigits) ∧
      (1 < gsfId.data.length → gsfId.data.head? ≠ some '0') ∧
      parseHex gsfId = some 0x1a2b3c) ∧
    FormatUint 0x1a2b3c 16 = "1a2b3c" ∧
    (getGsfId refusingEnv scenarioClient).1 =
      .returned ("", some "checkin error: 503 Service Unavailable 503") :=
  ⟨rfl,
    (getGsfId_result scenarioEnv scenarioClient [10, 0] [57, 60, 43, 26, 0, 0, 0, 0, 0]
      ⟨"200 OK", 200, .ok [57, 60, 43, 26, 0, 0, 0, 0, 0]⟩
      ⟨"200 OK", 200, .ok [57, 60, 43, 26, 0, 0, 0, 0, 0]⟩
      ⟨some 0x1a2b3c⟩ 0x1a2b3c rfl rfl rfl rfl rfl (by norm_num) rfl).1 rfl,
    by decide,
    (getGsfId_result refusingEnv scenarioClient [10, 0] [57, 60, 43, 26, 0, 0, 0, 0, 0]
      ⟨"200 OK", 200, .ok [57, 60, 43, 26, 0, 0, 0, 0, 0]⟩
      ⟨"503 Service Unavailable", 503, .ok []⟩
      ⟨some 0x1a2b3c⟩ 0x1a2b3c rfl rfl rfl rfl rfl (by norm_num) rfl).2 (by decide)⟩

/-- C10, the failing run: a first response that decodes to a message without
`AndroidId`, followed by a second response with status 200, makes `getGsfId`
dereference the absent field: the call neither returns an identifier nor
returns an error. -/
theorem getGsfId_nil_dereference :
    emptyBodyEnv.Unmarshal [] = .ok ⟨none⟩ ∧
    (getGsfId emptyBodyEnv scenarioClient).1 =
      .panicked "runtime error: invalid memory address or nil pointer dereference" ∧
    (∀ r : String × Option Error,
      (getGsfId emptyBodyEnv scenarioClient).1 ≠ .returned r) := by
  refine ⟨rfl, rfl, ?_⟩
  intro r h
  have e : (getGsfId emptyBodyEnv scenarioClient).1 =
      .panicked "runtime error: invalid memory address or nil pointer dereference" := rfl
  rw [e] at h
  cases h

/-! ## The build timestamp -/

/-- The build timestamp of a checkin request is the second within the minute
of the clock reading. -/
theorem buildTimestamp_eq (now : Time) :
    buildTimestamp now = some ((now.abs % 60 : Nat) : Int) := rfl

/-- C9, the failing pair of instants: a request built at second 59 of a minute
carries the timestamp 59 and a request built one second later carries 0, so
the later request has the smaller timestamp. -/
theorem buildTimestamp_wraps :
    (Time.mk 1612137659).abs ≤ (Time.mk 1612137660).abs ∧
    buildTimestamp (Time.mk 1612137659) = some 59 ∧
    buildTimestamp (Time.mk 1612137660) = some 0 ∧
    ¬ ((59 : Int) ≤ 0) := by
  refine ⟨by decide, ?_, ?_, by decide⟩
  · rw [buildTimestamp_eq]
    rfl
  · rw [buildTimestamp_eq]
    rfl

/-! ## Orchestration: the email/password pipeline -/

/-- A list of POSTs contains no write to the token store. -/
theorem posts_filter_isSaveToken (calls : List Call) (h : ∀ c ∈ calls, c.stage = 1) :
    calls.filter Call.isSaveToken = [] := by
  rw [List.filter_eq_nil_iff]
  intro c hc
  have hs := h c hc
  cases c <;> simp [Call.stage, Call.isSaveToken] at hs ⊢

/-- A list of POSTs contains no token exchange. -/
theorem posts_filter_isExchange (calls : List Call) (h : ∀ c ∈ calls, c.stage = 1) :
    calls.filter Call.isExchange = [] := by
  rw [List.filter_eq_nil_iff]
  intro c hc
  have hs := h c hc
  cases c <;> simp [Call.stage, Call.isExchange] at hs ⊢

/-- A list of POSTs is ordered by stage. -/
theorem posts_sorted (calls : List Call) (h : ∀ c ∈ calls, c.stage = 1) :
    calls.Pairwise (fun a b => a.stage ≤ b.stage) := by
  apply List.pairwise_of_forall_mem_list
  intro a ha b hb
  rw [h a ha, h b hb]

/-- The calls of a registration that returned are POSTs. -/
theorem posts_of_getGsfId (env : Env) (client : Client)
    (o : Outcome (String × Option Error)) (calls : List Call)
    (hr : getGsfId env client = (o, calls)) : ∀ c ∈ calls, c.stage = 1 := by
  have h := getGsfId_calls_are_posts env client
  rw [hr] at h
  exact h

/-- The three modes are the only values of `getAuthType`. -/
theorem getAuthType_cases (client : Client) :
    getAuthType client = EmailPassword ∨ getAuthType client = Token ∨
      getAuthType client = Unknown := by
  unfold getAuthType
  split
  · exact Or.inl rfl
  · split
    · exact Or.inr (Or.inl rfl)
    · exact Or.inr (Or.inr rfl)

/-- Case analysis on a run of `Authenticate`: a property holds of the run as
soon as it holds of each of the forms a run can take. -/
theorem Authenticate_shape (env : Env) (client : Client) (P : AuthRun → Prop)
    (quiet : ∀ r, P ⟨.returned r, client, []⟩)
    (encrypt : ∀ e, P ⟨.returned (some e), client,
      [Call.encryptCredentials client.config.Email client.config.Password]⟩)
    (crash : ∀ reason calls, (∀ c ∈ calls, c.stage = 1) →
      P ⟨.panicked reason, client,
        [Call.encryptCredentials client.config.Email client.config.Password] ++ calls⟩)
    (register : ∀ gsf e calls, (∀ c ∈ calls, c.stage = 1) →
      P ⟨.returned (some e), { client with config := { client.config with GsfId := gsf } },
        [Call.encryptCredentials client.config.Email client.config.Password] ++ calls⟩)
    (exchange : ∀ enc gsf tok calls r rest, (∀ c ∈ calls, c.stage = 1) →
      rest <+: [Call.SaveToken keyring.TokenKind.GSFID gsf,
        Call.SaveToken keyring.TokenKind.AuthSubToken tok] →
      P ⟨.returned r,
        { client with config := { client.config with GsfId := gsf, AuthSubToken := tok } },
        [Call.encryptCredentials client.config.Email client.config.Password] ++ calls ++
          [Call.getPlayStoreAuthSubToken client.config.Email enc] ++ rest⟩) :
    P (Authenticate env client) := by
  rcases getAuthType_cases client with hm | hm | hm
  · cases he : env.encryptCredentials client.config.Email client.config.Password none with
    | error e =>
      rw [Authenticate_encrypt_fails env client e hm he]
      exact encrypt e
    | ok enc =>
      rcases hr : getGsfId env client with ⟨o, calls⟩
      have hp := posts_of_getGsfId env client o calls hr
      rcases o with ⟨gsf, err⟩ | reason
      · cases err with
        | some e =>
          rw [Authenticate_register_fails env client enc gsf e calls hm he hr]
          exact register gsf e calls hp
        | none =>
          rcases hx : env.getPlayStoreAuthSubToken client.config.Email enc with ⟨tok, err⟩
          cases err with
          | some e =>
            rw [Authenticate_exchange_fails env client enc gsf tok e calls hm he hr hx]
            have := exchange enc gsf tok calls (some e) [] hp (List.nil_prefix)
            simpa using this
          | none =>
            cases h1 : env.SaveToken keyring.TokenKind.GSFID gsf with
            | some e =>
              rw [Authenticate_save_gsfId_fails env client enc gsf tok e calls hm he hr hx h1]
              exact exchange enc gsf tok calls (some e)
                [Call.SaveToken keyring.TokenKind.GSFID gsf] hp
                (List.prefix_iff_eq_append.2 rfl)
            | none =>
              cases h2 : env.SaveToken keyring.TokenKind.AuthSubToken tok with
              | some e =>
                rw [Authenticate_save_token_fails env client enc gsf tok e calls hm he hr hx h1 h2]
                have := exchange enc gsf tok calls (some e)
                  [Call.SaveToken keyring.TokenKind.GSFID gsf,
                    Call.SaveToken keyring.TokenKind.AuthSubToken tok] hp (List.prefix_refl _)
                simpa using this
              | none =>
                rw [Authenticate_all_succeed env client enc gsf tok calls hm he hr hx h1 h2]
                have := exchange enc gsf tok calls none
                  [Call.SaveToken keyring.TokenKind.GSFID gsf,
                    Call.SaveToken keyring.TokenKind.AuthSubToken tok] hp (List.prefix_refl _)
                simpa using this
      · rw [Authenticate_register_panics env client enc reason calls hm he hr]
        exact crash reason calls hp
  · rw [Authenticate_of_token env client hm]
    exact quiet none
  · rw [Authenticate_of_unknown env client hm]
    exact quiet (some authModeError)

/-- Two lists ordered by stage, the first below a stage `k` and the second
above it, are ordered by stage when put one after the other. -/
theorem sorted_append (l₁ l₂ : List Call) (k : Nat)
    (h₁ : l₁.Pairwise (fun a b => a.stage ≤ b.stage))
    (h₂ : l₂.Pairwise (fun a b => a.stage ≤ b.stage))
    (b₁ : ∀ a ∈ l₁, a.stage ≤ k) (b₂ : ∀ b ∈ l₂, k ≤ b.stage) :
    (l₁ ++ l₂).Pairwise (fun a b => a.stage ≤ b.stage) :=
  List.pairwise_append.2 ⟨h₁, h₂, fun a ha b hb => Nat.le_trans (b₁ a ha) (b₂ b hb)⟩

/-- The encryptor call followed by POSTs is ordered by stage and stays within
the registration stage. -/
theorem encrypt_posts_sorted (email password : String) (calls : List Call)
    (hp : ∀ c ∈ calls, c.stage = 1) :
    ([Call.encryptCredentials email password] ++ calls).Pairwise
      (fun a b => a.stage ≤ b.stage) ∧
    ∀ c ∈ [Call.encryptCredentials email password] ++ calls, c.stage ≤ 1 := by
  constructor
  · apply sorted_append _ _ 0 (List.pairwise_singleton _ _) (posts_sorted calls hp)
    · intro a ha
      rw [List.mem_singleton] at ha
      rw [ha]
      exact Nat.le_refl 0
    · intro b _
      exact Nat.zero_le _
  · intro c hc
    rcases List.mem_append.1 hc with h | h
    · rw [List.mem_singleton] at h
      rw [h]
      exact Nat.zero_le 1
    · rw [hp c h]

/-- The calls of `Authenticate` are made in the order of their stages. -/
theorem Authenticate_trace_sorted (env : Env) (client : Client) :
    (Authenticate env client).trace.Pairwise (fun a b => a.stage ≤ b.stage) := by
  apply Authenticate_shape env client
    (fun run => run.trace.Pairwise (fun a b => a.stage ≤ b.stage))
  · intro _
    exact List.Pairwise.nil
  · intro _
    exact List.pairwise_singleton _ _
  · intro _ calls hp
    exact (encrypt_posts_sorted _ _ calls hp).1
  · intro _ _ calls hp
    exact (encrypt_posts_sorted _ _ calls hp).1
  · intro enc gsf tok calls _ rest hp hrest
    obtain ⟨s1, b1⟩ := encrypt_posts_sorted client.config.Email client.config.Password calls hp
    have hrest3 : ∀ c ∈ rest, c.stage = 3 := by
      intro c hc
      have hc2 := hrest.subset hc
      simp only [List.mem_cons, List.mem_singleton, List.not_mem_nil, or_false] at hc2
      rcases hc2 with hc2 | hc2 <;> rw [hc2] <;> rfl
    have hrs : rest.Pairwise (fun a b => a.stage ≤ b.stage) := by
      apply List.pairwise_of_forall_mem_list
      intro a ha b hb
      rw [hrest3 a ha, hrest3 b hb]
    apply sorted_append _ _ 2 _ hrs
    · intro a ha
      rcases List.mem_append.1 ha with h | h
      · exact Nat.le_trans (b1 a h) (by decide)
      · rw [List.mem_singleton] at h
        rw [h]
        exact Nat.le_refl 2
    · intro b hb
      rw [hrest3 b hb]
      decide
    · apply sorted_append _ _ 1 s1 (List.pairwise_singleton _ _) b1
      intro b hb
      rw [List.mem_singleton] at hb
      rw [hb]
      exact Nat.le_succ 1

/-- C4: in email/password mode, when encryption, registration, the exchange and
both store writes succeed, `Authenticate` returns nil, `GsfId` is the
identifier registration returned, `AuthSubToken` is the token the exchange
returned, and the token store receives exactly two writes: `GSFID` with that
identifier, then `AuthSubToken` with that token. -/
theorem Authenticate_success (env : Env) (client : Client) (enc gsf tok : String)
    (calls : List Call)
    (hm : client.config.Email ≠ "" ∧ client.config.Password ≠ "")
    (he : env.encryptCredentials client.config.Email client.config.Password none = .ok enc)
    (hr : getGsfId env client = (.returned (gsf, none), calls))
    (hx : env.getPlayStoreAuthSubToken client.config.Email enc = (tok, none))
    (h1 : env.SaveToken keyring.TokenKind.GSFID gsf = none)
    (h2 : env.SaveToken keyring.TokenKind.AuthSubToken tok = none) :
    (Authenticate env client).result = .returned none ∧
    (Authenticate env client).client.config.GsfId = gsf ∧
    (Authenticate env client).client.config.AuthSubToken = tok ∧
    (Authenticate env client).trace.filter Call.isSaveToken =
      [Call.SaveToken keyring.TokenKind.GSFID gsf,
       Call.SaveToken keyring.TokenKind.AuthSubToken tok] := by
  have hp := posts_of_getGsfId env client _ calls hr
  rw [Authenticate_all_succeed env client enc gsf tok calls
    (getAuthType_of_credentials client hm) he hr hx h1 h2]
  refine ⟨rfl, rfl, rfl, ?_⟩
  simp only [List.filter_append, posts_filter_isSaveToken calls hp]
  rfl

/-- C4, on the end-to-end scenario: registration yields `1a2b3c`, the exchange
yields `abcDEF123`; both end up in the configuration and in the token store. -/
theorem Authenticate_success_witness :
    (scenarioClient.config.Email ≠ "" ∧ scenarioClient.config.Password ≠ "") ∧
    (Authenticate scenarioEnv scenarioClient).result = .returned none ∧
    (Authenticate scenarioEnv scenarioClient).client.config.GsfId = "1a2b3c" ∧
    (Authenticate scenarioEnv scenarioClient).client.config.AuthSubToken = "abcDEF123" ∧
    (Authenticate scenarioEnv scenarioClient).trace.filter Call.isSaveToken =
      [Call.SaveToken keyring.TokenKind.GSFID "1a2b3c",
       Call.SaveToken keyring.TokenKind.AuthSubToken "abcDEF123"] :=
  ⟨by decide,
    Authenticate_success scenarioEnv scenarioClient "AFcb4KQ" "1a2b3c" "abcDEF123"
      [Call.Post "https://play.test/checkin" "application/x-protobuf" [10, 0],
       Call.Post "https://play.test/checkin" "application/x-protobuf" [10, 0]]
      (by decide) rfl (by decide) rfl rfl rfl⟩

/-- C6: in email/password mode the calls of `Authenticate` are made in the
order encryptor, checkin registration, token exchange, store writes, and the
run stops at the first step that fails: the error of that step is the error
returned, and the trace ends with the calls of that step (no call of a later
step is made). -/
theorem Authenticate_pipeline (env : Env) (client : Client)
    (hm : client.config.Email ≠ "" ∧ client.config.Password ≠ "") :
    (Authenticate env client).trace.Pairwise (fun a b => a.stage ≤ b.stage) ∧
    (∀ e,
      env.encryptCredentials client.config.Email client.config.Password none = .error e →
      (Authenticate env client).result = .returned (some e) ∧
      (Authenticate env client).trace =
        [Call.encryptCredentials client.config.Email client.config.Password]) ∧
    (∀ enc gsf e calls,
      env.encryptCredentials client.config.Email client.config.Password none = .ok enc →
      getGsfId env client = (.returned (gsf, some e), calls) →
      (Authenticate env client).result = .returned (some e) ∧
      (Authenticate env client).trace =
        [Call.encryptCredentials client.config.Email client.config.Password] ++ calls ∧
      ∀ c ∈ (Authenticate env client).trace, c.stage ≤ 1) ∧
    (∀ enc gsf calls tok e,
      env.encryptCredentials client.config.Email client.config.Password none = .ok enc →
      getGsfId env client = (.returned (gsf, none), calls) →
      env.getPlayStoreAuthSubToken client.config.Email enc = (tok, some e) →
      (Authenticate env client).result = .returned (some e) ∧
      (Authenticate env client).trace =
        [Call.encryptCredentials client.config.Email client.config.Password] ++ calls ++
          [Call.getPlayStoreAuthSubToken client.config.Email enc] ∧
      (Authenticate env client).trace.filter Call.isSaveToken = []) ∧
    (∀ enc gsf calls tok e,
      env.encryptCredentials client.config.Email client.config.Password none = .ok enc →
      getGsfId env client = (.returned (gsf, none), calls) →
      env.getPlayStoreAuthSubToken client.config.Email enc = (tok, none) →
      env.SaveToken keyring.TokenKind.GSFID gsf = some e →
      (Authenticate env client).result = .returned (some e) ∧
      (Authenticate env client).trace =
        [Call.encryptCredentials client.config.Email client.config.Password] ++ calls ++
          [Call.getPlayStoreAuthSubToken client.config.Email enc] ++
          [Call.SaveToken keyring.TokenKind.GSFID gsf] ∧
      (Authenticate env client).trace.filter Call.isSaveToken =
        [Call.SaveToken keyring.TokenKind.GSFID gsf]) ∧
    (∀ enc gsf calls tok e,
      env.encryptCredentials client.config.Email client.config.Password none = .ok enc →
      getGsfId env client = (.returned (gsf, none), calls) →
      env.getPlayStoreAuthSubToken client.config.Email enc = (tok, none) →
      env.SaveToken keyring.TokenKind.GSFID gsf = none →
      env.SaveToken keyring.TokenKind.AuthSubToken tok = some e →
      (Authenticate env client).result = .returned (some e) ∧
      (Authenticate env client).trace =
        [Call.encryptCredentials client.config.Email client.config.Password] ++ calls ++
          [Call.getPlayStoreAuthSubToken client.config.Email enc] ++
          [Call.SaveToken keyring.TokenKind.GSFID gsf] ++
          [Call.SaveToken keyring.TokenKind.AuthSubToken tok]) := by
  have hmode := getAuthType_of_credentials client hm
  refine ⟨Authenticate_trace_sorted env client, ?_, ?_, ?_, ?_, ?_⟩
  · intro e he
    rw [Authenticate_encrypt_fails env client e hmode he]
    exact ⟨rfl, rfl⟩
  · intro enc gsf e calls he hr
    have hp := posts_of_getGsfId env client _ calls hr
    rw [Authenticate_register_fails env client enc gsf e calls hmode he hr]
    exact ⟨rfl, rfl, (encrypt_posts_sorted _ _ calls hp).2⟩
  · intro enc gsf calls tok e he hr hx
    have hp := posts_of_getGsfId env client _ calls hr
    rw [Authenticate_exchange_fails env client enc gsf tok e calls hmode he hr hx]
    refine ⟨rfl, rfl, ?_⟩
    simp only [List.filter_append, posts_filter_isSaveToken calls hp]
    rfl
  · intro enc gsf calls tok e he hr hx h1
    have hp := posts_of_getGsfId env client _ calls hr
    rw [Authenticate_save_gsfId_fails env client enc gsf tok e calls hmode he hr hx h1]
    refine ⟨rfl, rfl, ?_⟩
    simp only [List.filter_append, posts_filter_isSaveToken calls hp]
    rfl
  · intro enc gsf calls tok e he hr hx h1 h2
    rw [Authenticate_save_token_fails env client enc gsf tok e calls hmode he hr hx h1 h2]
    exact ⟨rfl, rfl⟩

/-- C6, on the scenario with a rejecting authorization endpoint: the error of
the exchange is returned, after the encryptor call, the two checkin POSTs and
the exchange call, and nothing is written to the token store. -/
theorem Authenticate_pipeline_witness :
    (scenarioClient.config.Email ≠ "" ∧ scenarioClient.config.Password ≠ "") ∧
    (Authenticate rejectingEnv scenarioClient).result =
      .returned (some "auth: 403 Forbidden") ∧
    (Authenticate rejectingEnv scenarioClient).trace =
      [Call.encryptCredentials "user@example.com" "hunter2"] ++
        [Call.Post "https://play.test/checkin" "application/x-protobuf" [10, 0],
         Call.Post "https://play.test/checkin" "application/x-protobuf" [10, 0]] ++
        [Call.getPlayStoreAuthSubToken "user@example.com" "AFcb4KQ"] ∧
    (Authenticate rejectingEnv scenarioClient).trace.filter Call.isSaveToken = [] :=
  ⟨by decide,
    (Authenticate_pipeline rejectingEnv scenarioClient (by decide)).2.2.2.1
      "AFcb4KQ" "1a2b3c"
      [Call.Post "https://play.test/checkin" "application/x-protobuf" [10, 0],
       Call.Post "https://play.test/checkin" "application/x-protobuf" [10, 0]]
      "" "auth: 403 Forbidden" rfl (by decide) rfl⟩

/-- C8 as stated does not hold: in the end-to-end scenario the exchange is not
called with the encrypted credential and the device identifier `1a2b3c` that
registration returned. -/
theorem exchange_not_called_with_deviceId :
    ¬ ∀ (env : Env) (client : Client) (enc gsf : String) (calls : List Call),
      (client.config.Email ≠ "" ∧ client.config.Password ≠ "") →
      env.encryptCredentials client.config.Email client.config.Password none = .ok enc →
      getGsfId env client = (.returned (gsf, none), calls) →
      Call.getPlayStoreAuthSubToken enc gsf ∈ (Authenticate env client).trace := by
  intro h
  have h2 := h scenarioEnv scenarioClient "AFcb4KQ" "1a2b3c"
    [Call.Post "https://play.test/checkin" "application/x-protobuf" [10, 0],
     Call.Post "https://play.test/checkin" "application/x-protobuf" [10, 0]]
    (by decide) rfl (by decide)
  revert h2
  decide

/-- C8, amended: in email/password mode, once the encryptor and registration
have succeeded, `Authenticate` makes exactly one call of the token exchange,
and its arguments are the `Email` of the configuration and the encrypted
credential; the device identifier is stored in `GsfId` and is not an argument
of the exchange. -/
theorem Authenticate_exchange_arguments (env : Env) (client : Client) (enc gsf : String)
    (calls : List Call)
    (hm : client.config.Email ≠ "" ∧ client.config.Password ≠ "")
    (he : env.encryptCredentials client.config.Email client.config.Password none = .ok enc)
    (hr : getGsfId env client = (.returned (gsf, none), calls)) :
    (Authenticate env client).trace.filter Call.isExchange =
      [Call.getPlayStoreAuthSubToken client.config.Email enc] ∧
    (Authenticate env client).client.config.GsfId = gsf := by
  have hmode := getAuthType_of_credentials client hm
  have hp := posts_of_getGsfId env client _ calls hr
  rcases hx : env.getPlayStoreAuthSubToken client.config.Email enc with ⟨tok, err⟩
  cases err with
  | some e =>
    rw [Authenticate_exchange_fails env client enc gsf tok e calls hmode he hr hx]
    refine ⟨?_, rfl⟩
    simp only [List.filter_append, posts_filter_isExchange calls hp]
    rfl
  | none =>
    cases h1 : env.SaveToken keyring.TokenKind.GSFID gsf with
    | some e =>
      rw [Authenticate_save_gsfId_fails env client enc gsf tok e calls hmode he hr hx h1]
      refine ⟨?_, rfl⟩
      simp only [List.filter_append, posts_filter_isExchange calls hp]
      rfl
    | none =>
      cases h2 : env.SaveToken keyring.TokenKind.AuthSubToken tok with
      | some e =>
        rw [Authenticate_save_token_fails env client enc gsf tok e calls hmode he hr hx h1 h2]
        refine ⟨?_, rfl⟩
        simp only [List.filter_append, posts_filter_isExchange calls hp]
        rfl
      | none =>
        rw [Authenticate_all_succeed env client enc gsf tok calls hmode he hr hx h1 h2]
        refine ⟨?_, rfl⟩
        simp only [List.filter_append, posts_filter_isExchange calls hp]
        rfl

/-- C8, amended, on the end-to-end scenario: the exchange is called with the
e-mail address and the encrypted credential. -/
theorem Authenticate_exchange_arguments_witness :
    (scenarioClient.config.Email ≠ "" ∧ scenarioClient.config.Password ≠ "") ∧
    (Authenticate scenarioEnv scenarioClient).trace.filter Call.isExchange =
      [Call.getPlayStoreAuthSubToken "user@example.com" "AFcb4KQ"] ∧
    (Authenticate scenarioEnv scenarioClient).client.config.GsfId = "1a2b3c" :=
  ⟨by decide,
    Authenticate_exchange_arguments scenarioEnv scenarioClient "AFcb4KQ" "1a2b3c"
      [Call.Post "https://play.test/checkin" "application/x-protobuf" [10, 0],
       Call.Post "https://play.test/checkin" "application/x-protobuf" [10, 0]]
      (by decide) rfl (by decide)⟩

/-- C2, on a client without any credentials. -/
theorem Authenticate_unknown_mode_witness :
    (blankClient.config.Email = "" ∨ blankClient.config.Password = "") ∧
    (blankClient.config.GsfId = "" ∨ blankClient.config.AuthSubToken = "") ∧
    (Authenticate scenarioEnv blankClient).result = .returned (some authModeError) ∧
    (Authenticate scenarioEnv blankClient).trace = [] :=
  ⟨Or.inl rfl, Or.inl rfl,
    Authenticate_unknown_mode scenarioEnv blankClient (Or.inl rfl) (Or.inl rfl)⟩

/-- C3, on a client that holds saved tokens and no password. -/
theorem Authenticate_token_mode_witness :
    ¬ (tokenClient.config.Email ≠ "" ∧ tokenClient.config.Password ≠ "") ∧
    tokenClient.config.GsfId ≠ "" ∧ tokenClient.config.AuthSubToken ≠ "" ∧
    (Authenticate scenarioEnv tokenClient).result = .returned none ∧
    (Authenticate scenarioEnv tokenClient).trace = [] ∧
    (Authenticate scenarioEnv tokenClient).client = tokenClient :=
  ⟨by decide, by decide, by decide,
    (Authenticate_token_mode scenarioEnv tokenClient (by decide) (by decide) (by decide)).1,
    (Authenticate_token_mode scenarioEnv tokenClient (by decide) (by decide) (by decide)).2.1,
    (Authenticate_token_mode scenarioEnv tokenClient (by decide) (by decide) (by decide)).2.2.1⟩

end auth
